import Mathlib

/-!
Shallow embedding of the MedQuery core (role-based access control, query
classification, summarization and aggregation) together with proofs of the
spec claims about it.

The definitions mirror the TypeScript sources:
  medquery_utils/accessControl.ts  (roles, permission table, record filtering)
  medquery_utils/summarizer.ts     (individual summaries, population stats, criteria search)
  medquery_agents/MedQueryAgent.ts (query classification, extraction, routing)

JavaScript strings are modelled as Lean `String`, JS numbers that carry
fractional values (averages, percentages) as `ℚ`, optional / possibly-absent
object fields as `Option`, and JS truthiness of a string or number is made
explicit where the source relies on it.
-/

namespace MedQuery

attribute [local semireducible] Rat.mul Rat.add Rat.inv Rat.sub Rat.ofScientific

/-! ## Generic string helpers (JS semantics) -/

/-- JS `String.prototype.toLowerCase` restricted to the ASCII inputs the
system uses. -/
def lowerStr (s : String) : String :=
  ⟨s.data.map Char.toLower⟩

/-- Does `p` occur at the very start of `s`? -/
def leadsChars : List Char → List Char → Bool
  | [], _ => true
  | _ :: _, [] => false
  | p :: ps, c :: cs => p = c && leadsChars ps cs

/-- Does `pat` occur as a contiguous run somewhere in `s`? -/
def containsChars (s pat : List Char) : Bool :=
  leadsChars pat s ||
    match s with
    | [] => false
    | _ :: rest => containsChars rest pat

/-- JS `String.prototype.includes`: substring containment. -/
def includesStr (s sub : String) : Bool :=
  containsChars s.data sub.data

/-- JS truthiness of a string: `""` is falsy, everything else truthy. -/
def jsTruthyStr (s : String) : Bool := s ≠ ""

/-- JS truthiness of an optional string field: absent (`undefined`) and the
empty string are falsy. -/
def jsTruthyOptStr : Option String → Bool
  | none => false
  | some s => jsTruthyStr s

/-- JS truthiness of an optional number field: absent and `0` are falsy. -/
def jsTruthyOptNat : Option Nat → Bool
  | none => false
  | some n => n ≠ 0

/-- JS `Math.round` on the rational model of a JS number:
round half toward positive infinity. -/
def jsRound (q : ℚ) : ℤ := ⌊q + 1/2⌋

/-- `Math.round(x * 100) / 100`, the two-decimal rounding used for averages
and percentages. -/
def roundHundredths (q : ℚ) : ℚ := (jsRound (q * 100) : ℚ) / 100

/-- Rendering of a non-negative JS number whose value is an integer number of
hundredths (the only numbers the system interpolates into messages):
JS prints the shortest decimal form, e.g. `33.33`, `55.5`, `50`. -/
def jsNumToString (q : ℚ) : String :=
  let n : ℕ := (q * 100).num.toNat
  let ip : ℕ := n / 100
  let fp : ℕ := n % 100
  if fp = 0 then toString ip
  else if fp % 10 = 0 then toString ip ++ "." ++ toString (fp / 10)
  else if fp < 10 then toString ip ++ ".0" ++ toString fp
  else toString ip ++ "." ++ toString fp

/-! ## accessControl.ts -/

/-- `UserRole` enum. -/
inductive UserRole where
  | doctor
  | researcher
  | marketing
  | intern
deriving DecidableEq, Repr

/-- The string value of a `UserRole` enum member. -/
def roleStr : UserRole → String
  | .doctor => "doctor"
  | .researcher => "researcher"
  | .marketing => "marketing"
  | .intern => "intern"

/-- `User` interface. -/
structure User where
  id : String
  name : String
  role : UserRole
deriving DecidableEq, Repr

/-- `PatientData` interface (every field required by the TS type). -/
structure PatientData where
  id : String
  name : String
  age : Nat
  gender : String
  conditions : List String
  medications : List String
  notes : String
  address : String
  visit_dates : List String
deriving DecidableEq, Repr

/-- `Partial<PatientData>`: each field possibly absent. -/
structure PartialPatient where
  id : Option String := none
  name : Option String := none
  age : Option Nat := none
  gender : Option String := none
  conditions : Option (List String) := none
  medications : Option (List String) := none
  notes : Option String := none
  address : Option String := none
  visit_dates : Option (List String) := none
deriving DecidableEq, Repr

/-- Embeds a full record as a partial one with every field present
(the view JS has of a `PatientData` object). -/
def toPartial (p : PatientData) : PartialPatient where
  id := some p.id
  name := some p.name
  age := some p.age
  gender := some p.gender
  conditions := some p.conditions
  medications := some p.medications
  notes := some p.notes
  address := some p.address
  visit_dates := some p.visit_dates

/-- The keys of a full `PatientData` object, in declaration order
(`Object.keys(patientData)`). -/
def allFields : List String :=
  ["id", "name", "age", "gender", "conditions", "medications", "notes",
   "address", "visit_dates"]

/-- The field names present (not `undefined`) on a partial record. -/
def presentFields (d : PartialPatient) : List String :=
  allFields.filter fun f =>
    if f = "id" then d.id.isSome
    else if f = "name" then d.name.isSome
    else if f = "age" then d.age.isSome
    else if f = "gender" then d.gender.isSome
    else if f = "conditions" then d.conditions.isSome
    else if f = "medications" then d.medications.isSome
    else if f = "notes" then d.notes.isSome
    else if f = "address" then d.address.isSome
    else d.visit_dates.isSome

/-- `AccessControlConfig` interface. -/
structure AccessControlConfig where
  allowedFields : List String
  canViewIndividualRecords : Bool
  canViewIdentifyingInfo : Bool
  canViewAggregatedData : Bool
deriving DecidableEq, Repr

/-- The static `rolePermissions` table. -/
def rolePermissions : UserRole → AccessControlConfig
  | .doctor =>
    { allowedFields := ["id", "name", "age", "gender", "conditions",
        "medications", "notes", "address", "visit_dates"]
      canViewIndividualRecords := true
      canViewIdentifyingInfo := true
      canViewAggregatedData := true }
  | .researcher =>
    { allowedFields := ["id", "age", "gender", "conditions", "medications",
        "notes", "visit_dates"]
      canViewIndividualRecords := true
      canViewIdentifyingInfo := false
      canViewAggregatedData := true }
  | .marketing =>
    { allowedFields := ["age", "gender", "conditions", "medications"]
      canViewIndividualRecords := false
      canViewIdentifyingInfo := false
      canViewAggregatedData := true }
  | .intern =>
    { allowedFields := []
      canViewIndividualRecords := false
      canViewIdentifyingInfo := false
      canViewAggregatedData := false }

/-- The `'individual' | 'aggregated'` request-type literal. -/
inductive RequestType where
  | individual
  | aggregated
deriving DecidableEq, Repr

/-- `AccessControlManager.checkAccess`. -/
def checkAccess (user : User) (requestType : RequestType) : Bool :=
  let permissions := rolePermissions user.role
  match requestType with
  | .individual => permissions.canViewIndividualRecords
  | .aggregated => permissions.canViewAggregatedData

/-- The body of `filterPatientData` after the individual-access guard:
copy each allowed field that is present on the input object, then, when
identifying info may not be viewed, delete `name` and `address` and replace a
truthy `id` by `ANON_` + id. -/
def filterFields (permissions : AccessControlConfig) (d : PartialPatient) :
    PartialPatient :=
  let filtered : PartialPatient :=
    { id := if "id" ∈ permissions.allowedFields then d.id else none
      name := if "name" ∈ permissions.allowedFields then d.name else none
      age := if "age" ∈ permissions.allowedFields then d.age else none
      gender := if "gender" ∈ permissions.allowedFields then d.gender else none
      conditions :=
        if "conditions" ∈ permissions.allowedFields then d.conditions else none
      medications :=
        if "medications" ∈ permissions.allowedFields then d.medications else none
      notes := if "notes" ∈ permissions.allowedFields then d.notes else none
      address := if "address" ∈ permissions.allowedFields then d.address else none
      visit_dates :=
        if "visit_dates" ∈ permissions.allowedFields then d.visit_dates else none }
  if permissions.canViewIdentifyingInfo then filtered
  else
    { filtered with
      name := none
      address := none
      id := filtered.id.map fun s => if jsTruthyStr s then "ANON_" ++ s else s }

/-- `AccessControlManager.filterPatientData` applied to an arbitrary
(possibly already filtered) partial record, as the untyped JS function is. -/
def filterPatientDataPartial (user : User) (d : PartialPatient) :
    Option PartialPatient :=
  let permissions := rolePermissions user.role
  if permissions.canViewIndividualRecords then
    some (filterFields permissions d)
  else none

/-- `AccessControlManager.filterPatientData` on a full record. -/
def filterPatientData (user : User) (patientData : PatientData) :
    Option PartialPatient :=
  filterPatientDataPartial user (toPartial patientData)

/-- `AccessControlManager.getAccessDeniedMessage`. -/
def getAccessDeniedMessage (user : User) : String :=
  match user.role with
  | .intern =>
    "Access Denied: Interns require supervision for patient data access. Please contact your supervisor."
  | .marketing =>
    "Access Denied: Marketing personnel can only access aggregated, de-identified statistics."
  | _ => "Access Denied: Insufficient permissions for this operation."

/-- `AccessControlManager.getUserPermissions`. -/
def getUserPermissions (user : User) : AccessControlConfig :=
  rolePermissions user.role

/-! ## summarizer.ts -/

/-- `SummaryOptions` interface. -/
structure SummaryOptions where
  includeStatistics : Bool := false
  includeTrends : Bool := false
  maxLength : Option Nat := none
deriving DecidableEq, Repr

/-- `PatientSummary` interface (`accessLevel` is a string: a role value or
`"denied"`). -/
structure PatientSummary where
  summary : String
  accessLevel : String
  redactedFields : Option (List String) := none
deriving DecidableEq, Repr

/-- One entry of `commonConditions` / `commonMedications`: label, count and
percentage of the total population. -/
structure FreqEntry where
  label : String
  count : Nat
  percentage : ℚ
deriving DecidableEq, Repr

/-- `PopulationStats` interface. `genderDistribution` is a JS object used as
a map; string keys keep first-insertion order, which `Object.entries`
preserves, so it is an ordered association list here. -/
structure PopulationStats where
  totalPatients : Nat
  averageAge : ℚ
  genderDistribution : List (String × Nat)
  commonConditions : List FreqEntry
  commonMedications : List FreqEntry
deriving DecidableEq, Repr

/-- `generateIndividualSummary`: renders the filtered record, omitting absent
fields, and appends the address line for doctors only. -/
def generateIndividualSummary (patientData : PartialPatient) (role : UserRole) :
    String :=
  let parts : List String :=
    (if jsTruthyOptStr patientData.name then
      ["Patient: " ++ patientData.name.getD ""]
     else if jsTruthyOptStr patientData.id then
      ["Patient ID: " ++ patientData.id.getD ""]
     else []) ++
    (let demographics : List String :=
      (match patientData.age with
       | some a => [toString a ++ " years old"]
       | none => []) ++
      (if jsTruthyOptStr patientData.gender then [patientData.gender.getD ""]
       else [])
     if demographics.length > 0 then
      ["Demographics: " ++ String.intercalate ", " demographics]
     else []) ++
    (match patientData.conditions with
     | some cs =>
       if cs.length > 0 then ["Conditions: " ++ String.intercalate ", " cs]
       else []
     | none => []) ++
    (match patientData.medications with
     | some ms =>
       if ms.length > 0 then
        ["Current Medications: " ++ String.intercalate ", " ms]
       else []
     | none => []) ++
    (if jsTruthyOptStr patientData.notes then
      ["Clinical Notes: " ++ patientData.notes.getD ""]
     else []) ++
    (match patientData.visit_dates with
     | some vs =>
       if vs.length > 0 then
        ["Visit History: " ++ toString vs.length ++ " visits, most recent on "
          ++ (vs.getLast?.getD "")]
       else []
     | none => []) ++
    (if jsTruthyOptStr patientData.address && role = UserRole.doctor then
      ["Address: " ++ patientData.address.getD ""]
     else [])
  String.intercalate "\n\n" parts

/-- `PatientSummarizer.summarizeIndividualPatient`. -/
def summarizeIndividualPatient (user : User) (patientData : PatientData)
    (options : SummaryOptions := {}) : PatientSummary :=
  if checkAccess user .individual = false then
    { summary := getAccessDeniedMessage user
      accessLevel := "denied"
      redactedFields := some allFields }
  else
    match filterPatientData user patientData with
    | none =>
      { summary := getAccessDeniedMessage user
        accessLevel := "denied"
        redactedFields := some allFields }
    | some filteredData =>
      let permissions := getUserPermissions user
      let redactedFields :=
        allFields.filter fun f => f ∉ permissions.allowedFields
      let summary := generateIndividualSummary filteredData user.role
      let summary :=
        match options.maxLength with
        | some m =>
          if jsTruthyOptNat (some m) && summary.length > m then
            ⟨summary.data.take m⟩ ++ "..."
          else summary
        | none => summary
      { summary := summary
        accessLevel := roleStr user.role
        redactedFields :=
          if redactedFields.length > 0 then some redactedFields else none }

/-- Increment the count of `k` in an insertion-ordered JS-object map,
appending a fresh key at the end. -/
def bumpCount (m : List (String × Nat)) (k : String) : List (String × Nat) :=
  match m with
  | [] => [(k, 1)]
  | (k', c) :: rest =>
    if k' = k then (k', c + 1) :: rest else (k', c) :: bumpCount rest k

/-- Fold a list of keys into an insertion-ordered count map. -/
def countAll (ks : List String) : List (String × Nat) :=
  ks.foldl bumpCount []

/-- Stable insertion of `x` into a list already sorted by strictly descending
key: `x` goes after every earlier element whose key is `≥` its own, which is
what JS's stable `sort((a, b) => b.count - a.count)` produces. -/
def insertDescBy (key : α → Nat) (x : α) : List α → List α
  | [] => [x]
  | y :: ys => if key x > key y then x :: y :: ys else y :: insertDescBy key x ys

/-- Stable descending sort by `key` (model of JS stable `Array.sort` with a
descending numeric comparator): elements are inserted in their original
left-to-right order, so ties keep first-encounter order. -/
def sortDescBy (key : α → Nat) (xs : List α) : List α :=
  xs.foldl (fun acc x => insertDescBy key x acc) []

/-- Count map → sorted top-10 frequency entries with percentage of the total
population, as built for `commonConditions` / `commonMedications`. -/
def topFreq (m : List (String × Nat)) (totalPatients : Nat) : List FreqEntry :=
  ((m.map fun (k, c) =>
      { label := k
        count := c
        percentage := roundHundredths ((c : ℚ) / (totalPatients : ℚ) * 100) })
    |> sortDescBy (·.count)).take 10

/-- `PatientSummarizer.generatePopulationStats`. -/
def generatePopulationStats (user : User) (patients : List PatientData) :
    Except String PopulationStats :=
  if checkAccess user .aggregated = false then
    .error (getAccessDeniedMessage user)
  else
    let totalPatients := patients.length
    let ages := patients.map (·.age)
    let averageAge : ℚ :=
      if ages.length > 0 then
        ((ages.foldl (· + ·) 0 : Nat) : ℚ) / (ages.length : ℚ)
      else 0
    let genderDistribution :=
      countAll ((patients.filter fun p => jsTruthyStr p.gender).map (·.gender))
    let commonConditions :=
      topFreq (countAll (patients.flatMap (·.conditions))) totalPatients
    let commonMedications :=
      topFreq (countAll (patients.flatMap (·.medications))) totalPatients
    .ok
      { totalPatients := totalPatients
        averageAge := roundHundredths averageAge
        genderDistribution := genderDistribution
        commonConditions := commonConditions
        commonMedications := commonMedications }

/-- The search-criteria object built by `extractSearchCriteria` and consumed
by `findPatientsByCriteria`. -/
structure Criteria where
  minAge : Option Nat := none
  maxAge : Option Nat := none
  gender : Option String := none
  conditions : Option (List String) := none
  medications : Option (List String) := none
deriving DecidableEq, Repr

/-- The per-record predicate of `findPatientsByCriteria`: conjunctive age,
gender, condition and medication filters. -/
def matchesCriteria (criteria : Criteria) (patient : PatientData) : Bool :=
  (match criteria.minAge with
   | some m => decide (patient.age ≥ m)
   | none => true) &&
  (match criteria.maxAge with
   | some m => decide (patient.age ≤ m)
   | none => true) &&
  (match criteria.gender with
   | some g =>
     if jsTruthyStr g then lowerStr patient.gender = lowerStr g else true
   | none => true) &&
  (match criteria.conditions with
   | some cs =>
     if cs.length > 0 then
      cs.all fun condition =>
        patient.conditions.any fun pc =>
          includesStr (lowerStr pc) (lowerStr condition)
     else true
   | none => true) &&
  (match criteria.medications with
   | some ms =>
     if ms.length > 0 then
      ms.all fun medication =>
        patient.medications.any fun pm =>
          includesStr (lowerStr pm) (lowerStr medication)
     else true
   | none => true)

/-- `PatientSummarizer.findPatientsByCriteria`. Survivors are returned as
partial records: roles with individual access get them through
`filterPatientData`, aggregate-only roles get the raw records unchanged. -/
def findPatientsByCriteria (user : User) (patients : List PatientData)
    (criteria : Criteria) : Except String (List PartialPatient) :=
  if checkAccess user .aggregated = false &&
      checkAccess user .individual = false then
    .error (getAccessDeniedMessage user)
  else
    let filteredPatients := patients.filter (matchesCriteria criteria)
    if checkAccess user .individual then
      .ok ((filteredPatients.map (filterPatientData user)).filterMap id)
    else
      .ok (filteredPatients.map toPartial)

/-! ## MedQueryAgent.ts — query classification and parameter extraction

The extraction helpers model the agent's JS regular expressions by direct
left-to-right scanning: at each start position the alternatives are tried in
source order, and the leftmost successful position wins, exactly as a JS
`String.match` does.  The `i` flag makes every letter class case-insensitive,
so `[A-Z]` / `[a-z]` both stand for an arbitrary ASCII letter. -/

/-- JS `\s` on the inputs in use. -/
def isWsChar (c : Char) : Bool :=
  c = ' ' || c = '\t' || c = '\n' || c = '\r'

/-- Quote class `["']`. -/
def isQuoteChar (c : Char) : Bool :=
  c = '"' || c = Char.ofNat 39

/-- Match a literal case-insensitively, returning the remaining input. -/
def matchLitCI : List Char → List Char → Option (List Char)
  | [], cs => some cs
  | _ :: _, [] => none
  | p :: ps, c :: cs =>
    if p.toLower = c.toLower then matchLitCI ps cs else none

/-- Match `\s+` greedily. -/
def matchWsPlus (cs : List Char) : Option (List Char) :=
  let ws := cs.takeWhile isWsChar
  if ws.isEmpty then none else some (cs.drop ws.length)

/-- Digit run `\d+` (greedy) with its numeric value (`parseInt`). -/
def matchDigitsPlus (cs : List Char) : Option (Nat × List Char) :=
  match cs.takeWhile Char.isDigit with
  | [] => none
  | ds => some (ds.foldl (fun n c => n * 10 + (c.toNat - 48)) 0, cs.drop (ds.length))

/-- Capture group `([A-Z]\d+)` under the `i` flag: a letter then digits. -/
def matchIdCapture (cs : List Char) : Option String :=
  match cs with
  | [] => none
  | c :: rest =>
    if c.isAlpha then
      match rest.takeWhile Char.isDigit with
      | [] => none
      | ds => some ⟨c :: ds⟩
    else none

/-- One start position of `/(?:patient\s+id\s+|id\s+)([A-Z]\d+)/i`. -/
def tryPatientIdAt (cs : List Char) : Option String :=
  (do
    let r ← matchLitCI "patient".data cs
    let r ← matchWsPlus r
    let r ← matchLitCI "id".data r
    let r ← matchWsPlus r
    matchIdCapture r) <|>
  (do
    let r ← matchLitCI "id".data cs
    let r ← matchWsPlus r
    matchIdCapture r)

/-- Left-to-right scan for the patient-id pattern. -/
def scanPatientId : List Char → Option String
  | [] => none
  | c :: cs => tryPatientIdAt (c :: cs) <|> scanPatientId cs

/-- `extractPatientId`. -/
def extractPatientId (query : String) : Option String :=
  scanPatientId query.data

/-- The lazy capture `(.*?)` of `/["'](.*?)["']/` after an opening quote:
take characters up to the first closing quote, failing at a newline or the
end of input (`.` does not match line terminators). -/
def takeToQuote : List Char → Option (List Char)
  | [] => none
  | c :: cs =>
    if isQuoteChar c then some []
    else if c = '\n' || c = '\r' then none
    else (takeToQuote cs).map (c :: ·)

/-- Left-to-right scan for a quoted name. -/
def scanQuoted : List Char → Option String
  | [] => none
  | c :: cs =>
    (if isQuoteChar c then (takeToQuote cs).map fun l => (⟨l⟩ : String)
     else none) <|> scanQuoted cs

/-- One word of the capture `[A-Z][a-z]+` under the `i` flag: a letter then
one or more further letters, greedy. -/
def matchWordTwo (cs : List Char) : Option (List Char × List Char) :=
  match cs with
  | [] => none
  | c :: rest =>
    if c.isAlpha then
      match rest.takeWhile Char.isAlpha with
      | [] => none
      | ls => some (c :: ls, rest.drop ls.length)
    else none

/-- The capture `([A-Z][a-z]+\s+[A-Z][a-z]+)` under the `i` flag. -/
def matchNameCapture (cs : List Char) : Option String := do
  let (w1, r1) ← matchWordTwo cs
  let ws := r1.takeWhile isWsChar
  if ws.isEmpty then none
  else do
    let (w2, _) ← matchWordTwo (r1.drop ws.length)
    some ⟨w1 ++ ws ++ w2⟩

/-- One start position of `/(?:patient\s+|summarize\s+)([A-Z][a-z]+\s+[A-Z][a-z]+)/i`. -/
def tryNameAt (cs : List Char) : Option String :=
  (do
    let r ← matchLitCI "patient".data cs
    let r ← matchWsPlus r
    matchNameCapture r) <|>
  (do
    let r ← matchLitCI "summarize".data cs
    let r ← matchWsPlus r
    matchNameCapture r)

/-- Left-to-right scan for the two-word name pattern. -/
def scanName : List Char → Option String
  | [] => none
  | c :: cs => tryNameAt (c :: cs) <|> scanName cs

/-- `extractPatientName`: quoted name first, else the two-word pattern. -/
def extractPatientName (query : String) : Option String :=
  scanQuoted query.data <|> scanName query.data

/-- One start position of `/(\d+)\+|over (\d+)|aged (\d+)/i` (the two
keyword alternatives spell a single literal space). -/
def tryAgeSingleAt (cs : List Char) : Option Nat :=
  (do
    let (n, r) ← matchDigitsPlus cs
    match r with
    | c :: _ => if c = '+' then some n else none
    | [] => none) <|>
  (do
    let r ← matchLitCI "over ".data cs
    let (n, _) ← matchDigitsPlus r
    some n) <|>
  (do
    let r ← matchLitCI "aged ".data cs
    let (n, _) ← matchDigitsPlus r
    some n)

/-- Scan for the single-bound age pattern. -/
def scanAgeSingle : List Char → Option Nat
  | [] => none
  | c :: cs => tryAgeSingleAt (c :: cs) <|> scanAgeSingle cs

/-- One start position of `/(\d+)-(\d+)|between (\d+) and (\d+)/i`. -/
def tryAgeRangeAt (cs : List Char) : Option (Nat × Nat) :=
  (do
    let (n1, r) ← matchDigitsPlus cs
    match r with
    | c :: r2 =>
      if c = '-' then do
        let (n2, _) ← matchDigitsPlus r2
        some (n1, n2)
      else none
    | [] => none) <|>
  (do
    let r ← matchLitCI "between ".data cs
    let (n1, r2) ← matchDigitsPlus r
    let r3 ← matchLitCI " and ".data r2
    let (n2, _) ← matchDigitsPlus r3
    some (n1, n2))

/-- Scan for the min/max age-range pattern. -/
def scanAgeRange : List Char → Option (Nat × Nat)
  | [] => none
  | c :: cs => tryAgeRangeAt (c :: cs) <|> scanAgeRange cs

/-- Scan for `/under (\d+)/i` (used by `formatPopulationStats`). -/
def tryUnderAt (cs : List Char) : Option Nat := do
  let r ← matchLitCI "under ".data cs
  let (n, _) ← matchDigitsPlus r
  some n

/-- Left-to-right scan for the `under N` pattern. -/
def scanUnderAge : List Char → Option Nat
  | [] => none
  | c :: cs => tryUnderAt (c :: cs) <|> scanUnderAge cs

/-- The fixed condition vocabulary of the agent's extractors. -/
def conditionsVocab : List String :=
  ["diabetes", "hypertension", "asthma", "cholesterol"]

/-- The fixed medication vocabulary of the agent's extractors. -/
def medicationsVocab : List String :=
  ["metformin", "lisinopril", "albuterol", "atorvastatin"]

/-- `extractSearchCriteria`: single age bound first, then the range pattern
(which overwrites it), then vocabulary conditions and medications. -/
def extractSearchCriteria (query : String) : Criteria :=
  let c0 : Criteria := {}
  let c1 :=
    match scanAgeSingle query.data with
    | some n => { c0 with minAge := some n }
    | none => c0
  let c2 :=
    match scanAgeRange query.data with
    | some (a, b) => { c1 with minAge := some a, maxAge := some b }
    | none => c1
  let foundConditions := conditionsVocab.filter fun c =>
    includesStr (lowerStr query) (lowerStr c)
  let c3 :=
    if foundConditions.length > 0 then { c2 with conditions := some foundConditions }
    else c2
  let foundMedications := medicationsVocab.filter fun m =>
    includesStr (lowerStr query) (lowerStr m)
  if foundMedications.length > 0 then { c3 with medications := some foundMedications }
  else c3

/-- `extractMedication`: first vocabulary entry contained in the query. -/
def extractMedication (query : String) : Option String :=
  medicationsVocab.find? fun med => includesStr (lowerStr query) (lowerStr med)

/-- `extractCondition`: first vocabulary entry contained in the query. -/
def extractCondition (query : String) : Option String :=
  conditionsVocab.find? fun condition =>
    includesStr (lowerStr query) (lowerStr condition)

/-! ## MedQueryAgent.ts — classification and routing -/

/-- Rule 1: `summarize` and (`patient` or `history`) → individual summary. -/
def rule1Guard (lq : String) : Bool :=
  includesStr lq "summarize" && (includesStr lq "patient" || includesStr lq "history")

/-- Rule 2: `patient id` or `medication history` → patient lookup. -/
def rule2Guard (lq : String) : Bool :=
  includesStr lq "patient id" || includesStr lq "medication history"

/-- Rule 3: `percentage`, `average`, `how many` or `statistics` → population stats. -/
def rule3Guard (lq : String) : Bool :=
  includesStr lq "percentage" || includesStr lq "average" ||
  includesStr lq "how many" || includesStr lq "statistics"

/-- Rule 4: `find` and `patients` → criteria search. -/
def rule4Guard (lq : String) : Bool :=
  includesStr lq "find" && includesStr lq "patients"

/-- Rule 5: `medication`, `drug`, `prescribed` or `taking` → medication query. -/
def rule5Guard (lq : String) : Bool :=
  includesStr lq "medication" || includesStr lq "drug" ||
  includesStr lq "prescribed" || includesStr lq "taking"

/-- Rule 6: `condition`, `diabetes`, `hypertension` or `asthma` → condition
query (note: this list is the literal source vocabulary of `categorizeQuery`;
it does not include `cholesterol`). -/
def rule6Guard (lq : String) : Bool :=
  includesStr lq "condition" || includesStr lq "diabetes" ||
  includesStr lq "hypertension" || includesStr lq "asthma"

/-- `MedQueryAgent.categorizeQuery`: the ordered first-match-wins rules over
the lowercased query. -/
def categorizeQuery (query : String) : String :=
  let lowerQuery := lowerStr query
  if rule1Guard lowerQuery then "individual_summary"
  else if rule2Guard lowerQuery then "patient_lookup"
  else if rule3Guard lowerQuery then "population_stats"
  else if rule4Guard lowerQuery then "criteria_search"
  else if rule5Guard lowerQuery then "medication_query"
  else if rule6Guard lowerQuery then "condition_query"
  else "general"

/-- The structured payloads a `QueryResult.data` field can carry. -/
inductive ResultData where
  | summaryData : PatientSummary → ResultData
  | statsData : PopulationStats → ResultData
  | recordsData : List PartialPatient → ResultData
  | medCountData : Nat → ℚ → ResultData
deriving DecidableEq, Repr

/-- `QueryResult` interface. -/
structure QueryResult where
  success : Bool
  data : Option ResultData := none
  message : String
  accessLevel : String
  redactedFields : Option (List String) := none
deriving DecidableEq, Repr

/-- `QueryContext` interface. -/
structure QueryContext where
  user : User
  patients : List PatientData
deriving Repr

/-- JS template interpolation of a possibly-undefined string field. -/
def renderOptStr : Option String → String
  | some s => s
  | none => "undefined"

/-- The patient-resolution logic at the top of `handleIndividualSummary`:
an extracted id is looked up exactly; otherwise an extracted name is matched
as a case-insensitive substring of the stored name. -/
def lookupPatientFor (patients : List PatientData) (query : String) :
    Option PatientData :=
  match extractPatientId query with
  | some patientId => patients.find? fun p => p.id = patientId
  | none =>
    match extractPatientName query with
    | some patientName =>
      patients.find? fun p =>
        includesStr (lowerStr p.name) (lowerStr patientName)
    | none => none

/-- `MedQueryAgent.handleIndividualSummary`. -/
def handleIndividualSummary (ctx : QueryContext) (query : String) : QueryResult :=
  match lookupPatientFor ctx.patients query with
  | none =>
    { success := false
      message := "Patient not found. Please check the patient ID or name."
      accessLevel := roleStr ctx.user.role }
  | some patient =>
    let summary :=
      summarizeIndividualPatient ctx.user patient { includeStatistics := true }
    { success := summary.accessLevel != "denied"
      data := some (.summaryData summary)
      message := summary.summary
      accessLevel := summary.accessLevel
      redactedFields := summary.redactedFields }

/-- `MedQueryAgent.handlePatientLookup`: resolves the id and delegates to the
individual-summary handler on `"Summarize patient " + name`. -/
def handlePatientLookup (ctx : QueryContext) (query : String) : QueryResult :=
  match extractPatientId query with
  | none =>
    { success := false
      message := "Please specify a patient ID for lookup."
      accessLevel := roleStr ctx.user.role }
  | some patientId =>
    match ctx.patients.find? fun p => p.id = patientId with
    | none =>
      { success := false
        message := "Patient with ID " ++ patientId ++ " not found."
        accessLevel := roleStr ctx.user.role }
    | some patient =>
      handleIndividualSummary ctx ("Summarize patient " ++ patient.name)

/-- The default comprehensive section of `formatPopulationStats`. -/
def defaultStatsMessage (stats : PopulationStats) : String :=
  let genderLines := stats.genderDistribution.foldl
    (fun acc gc =>
      acc ++ "- " ++ gc.1 ++ ": " ++ toString gc.2 ++ " (" ++
        toString (jsRound ((gc.2 : ℚ) / (stats.totalPatients : ℚ) * 100)) ++ "%)\n")
    ""
  let condLines := (stats.commonConditions.take 5).foldl
    (fun acc e =>
      acc ++ "- " ++ e.label ++ ": " ++ toString e.count ++ " patients (" ++
        jsNumToString e.percentage ++ "%)\n")
    ""
  let medLines := (stats.commonMedications.take 5).foldl
    (fun acc e =>
      acc ++ "- " ++ e.label ++ ": " ++ toString e.count ++ " patients (" ++
        jsNumToString e.percentage ++ "%)\n")
    ""
  "Population Statistics:\n\n" ++
  "Total Patients: " ++ toString stats.totalPatients ++ "\n" ++
  "Average Age: " ++ jsNumToString stats.averageAge ++ " years\n\n" ++
  "Gender Distribution:\n" ++ genderLines ++
  "\nMost Common Conditions:\n" ++ condLines ++
  "\nMost Common Medications:\n" ++ medLines

/-- `MedQueryAgent.formatPopulationStats`. -/
def formatPopulationStats (stats : PopulationStats) (query : String) : String :=
  let lowerQuery := lowerStr query
  if includesStr lowerQuery "average age" then
    "The average age of patients is " ++ jsNumToString stats.averageAge ++ " years."
  else if includesStr lowerQuery "percentage" && includesStr lowerQuery "under" then
    match scanUnderAge query.data with
    | some _ =>
      "Population statistics available. Please specify the exact metric you\x27d like to know."
    | none => defaultStatsMessage stats
  else defaultStatsMessage stats

/-- `MedQueryAgent.handlePopulationStats`. -/
def handlePopulationStats (ctx : QueryContext) (query : String) : QueryResult :=
  match generatePopulationStats ctx.user ctx.patients with
  | .error e =>
    { success := false, message := e, accessLevel := roleStr ctx.user.role }
  | .ok stats =>
    { success := true
      data := some (.statsData stats)
      message := formatPopulationStats stats query
      accessLevel := roleStr ctx.user.role }

/-- `MedQueryAgent.handleCriteriaSearch`: marketing gets a count-only message
body, other roles an enumerated listing — but `data` always carries the list
returned by `findPatientsByCriteria`. -/
def handleCriteriaSearch (ctx : QueryContext) (query : String) : QueryResult :=
  let criteria := extractSearchCriteria query
  match findPatientsByCriteria ctx.user ctx.patients criteria with
  | .error e =>
    { success := false, message := e, accessLevel := roleStr ctx.user.role }
  | .ok results =>
    let message :=
      "Found " ++ toString results.length ++ " patients matching criteria:\n\n"
    let message :=
      if ctx.user.role = UserRole.marketing then
        let m := message ++ "Total matches: " ++ toString results.length ++ "\n"
        if jsTruthyOptNat criteria.minAge || jsTruthyOptNat criteria.maxAge then
          m ++ "Age range: " ++ toString (criteria.minAge.getD 0) ++ "-" ++
            (match criteria.maxAge with
             | some a => if a ≠ 0 then toString a else "any"
             | none => "any") ++ "\n"
        else m
      else
        let listed := (results.take 10).enum.foldl
          (fun acc ip =>
            acc ++
              (if jsTruthyOptStr ip.2.name then
                toString (ip.1 + 1) ++ ". " ++ renderOptStr ip.2.name ++
                  " (ID: " ++ renderOptStr ip.2.id ++ ")\n"
               else
                toString (ip.1 + 1) ++ ". Patient ID: " ++
                  renderOptStr ip.2.id ++ "\n"))
          message
        if results.length > 10 then
          listed ++ "... and " ++ toString (results.length - 10) ++ " more patients\n"
        else listed
    { success := true
      data := some (.recordsData results)
      message := message
      accessLevel := roleStr ctx.user.role }

/-- `MedQueryAgent.handleMedicationQuery`. -/
def handleMedicationQuery (ctx : QueryContext) (query : String) : QueryResult :=
  match extractMedication query with
  | none =>
    { success := false
      message := "Please specify a medication name in your query."
      accessLevel := roleStr ctx.user.role }
  | some medication =>
    let patientsOnMedication := ctx.patients.filter fun patient =>
      patient.medications.any fun med =>
        includesStr (lowerStr med) (lowerStr medication)
    if ctx.user.role = UserRole.marketing then
      let percentage := roundHundredths
        ((patientsOnMedication.length : ℚ) / (ctx.patients.length : ℚ) * 100)
      { success := true
        data := some (.medCountData patientsOnMedication.length percentage)
        message := jsNumToString percentage ++ "% of patients (" ++
          toString patientsOnMedication.length ++ " out of " ++
          toString ctx.patients.length ++ ") are prescribed " ++ medication ++ "."
        accessLevel := roleStr ctx.user.role }
    else handleCriteriaSearch ctx ("Find patients taking " ++ medication)

/-- `MedQueryAgent.handleConditionQuery`. -/
def handleConditionQuery (ctx : QueryContext) (query : String) : QueryResult :=
  match extractCondition query with
  | none =>
    { success := false
      message := "Please specify a medical condition in your query."
      accessLevel := roleStr ctx.user.role }
  | some condition =>
    handleCriteriaSearch ctx ("Find patients with " ++ condition)

/-- `MedQueryAgent.getRoleSuggestions`. -/
def getRoleSuggestions (role : UserRole) : List String :=
  match role with
  | .doctor =>
    ["• \x27Summarize Jane Smith\x27s health history\x27",
     "• \x27What is the medication history of patient ID P001?\x27",
     "• \x27Find patients with Type 2 Diabetes\x27",
     "• \x27Show me all patients taking Metformin\x27"]
  | .researcher =>
    ["• \x27Find all patients aged 60+ with Type 2 Diabetes\x27",
     "• \x27How many patients with Asthma are currently prescribed Albuterol?\x27",
     "• \x27Show population statistics for hypertension patients\x27",
     "• \x27What\x27s the average age of patients with diabetes?\x27"]
  | .marketing =>
    ["• \x27What percentage of patients under 40 are on Metformin?\x27",
     "• \x27What\x27s the average age of patients with mild hypertension?\x27",
     "• \x27How many patients are prescribed Lisinopril?\x27",
     "• \x27Show me population statistics\x27"]
  | .intern =>
    ["• Access to patient data requires supervision",
     "• Please contact your supervisor for assistance",
     "• You can ask general questions about the system"]

/-- `MedQueryAgent.handleGeneralQuery`. -/
def handleGeneralQuery (ctx : QueryContext) (_query : String) : QueryResult :=
  { success := true
    message := "I can help you with medical queries. Here are some examples of what you can ask:\n\n"
      ++ String.intercalate "\n" (getRoleSuggestions ctx.user.role)
    accessLevel := roleStr ctx.user.role }

/-- `MedQueryAgent.processQueryRuleBased`: dispatch on the classified type. -/
def processQueryRuleBased (ctx : QueryContext) (query : String) : QueryResult :=
  let queryType := categorizeQuery query
  if queryType = "individual_summary" then handleIndividualSummary ctx query
  else if queryType = "patient_lookup" then handlePatientLookup ctx query
  else if queryType = "population_stats" then handlePopulationStats ctx query
  else if queryType = "criteria_search" then handleCriteriaSearch ctx query
  else if queryType = "medication_query" then handleMedicationQuery ctx query
  else if queryType = "condition_query" then handleConditionQuery ctx query
  else handleGeneralQuery ctx query

/-- `AIProcessor.processQuery` (aiProcessor.ts): the OpenAI network call is
abstracted as its outcome — `Except.ok` carries the delegate's reply text,
`Except.error` the thrown error's message.  On success the reply is returned
as a successful result; in the `catch` branch the method returns a failed
"AI service temporarily unavailable" result (it does not invoke the
rule-based path, despite the comment above that return). -/
def aiProcessorProcessQuery (user : User) (outcome : Except String String) :
    QueryResult :=
  match outcome with
  | .ok aiResponse =>
    { success := true
      message := aiResponse
      accessLevel := roleStr user.role
      data := none }
  | .error e =>
    { success := false
      message := "AI service temporarily unavailable. Error: " ++ e
      accessLevel := roleStr user.role }

/-- `MedQueryAgent.processQuery`: when AI is configured the result is the
delegate's result; otherwise the rule-based path runs.  (The surrounding
`try` only catches exceptions, and `aiProcessorProcessQuery` never throws —
it converts failures into result values.) -/
def agentProcessQuery (useAI : Bool) (aiOutcome : Except String String)
    (ctx : QueryContext) (query : String) : QueryResult :=
  if useAI then aiProcessorProcessQuery ctx.user aiOutcome
  else processQueryRuleBased ctx query

/-! ## Statement vocabulary -/

/-- The field names present in `U`'s filtered view of `R`; empty when
`filterPatientData` denies the record. -/
def viewFields (u : User) (r : PatientData) : List String :=
  match filterPatientData u r with
  | some v => presentFields v
  | none => []

/-- The Intern-specific denial text. -/
def internDeniedMessage : String :=
  "Access Denied: Interns require supervision for patient data access. Please contact your supervisor."

/-! ## Concrete fixtures (the README sample patients and one user per role) -/

/-- Sample record P001 (Jane Smith, 67, on Metformin). -/
def janeRec : PatientData :=
  { id := "P001", name := "Jane Smith", age := 67, gender := "Female"
    conditions := ["Type 2 Diabetes", "Hypertension"]
    medications := ["Metformin"]
    notes := "Stable"
    address := "123 Main St"
    visit_dates := ["2024-01-15", "2024-03-22"] }

/-- Sample record P002 (John Doe, 42). -/
def johnRec : PatientData :=
  { id := "P002", name := "John Doe", age := 42, gender := "Male"
    conditions := ["Asthma"]
    medications := ["Albuterol"]
    notes := "Mild"
    address := "456 Oak Ave"
    visit_dates := ["2024-02-10"] }

/-- Sample record P003 (Mary Johnson, 58). -/
def maryRec : PatientData :=
  { id := "P003", name := "Mary Johnson", age := 58, gender := "Female"
    conditions := ["Hypertension"]
    medications := ["Lisinopril"]
    notes := "Improving"
    address := "789 Pine Rd"
    visit_dates := ["2024-04-01"] }

/-- A record whose stored name is a single word. -/
def johnOnlyRec : PatientData := { johnRec with id := "P001", name := "John" }

/-- A record whose id is the empty string. -/
def emptyIdRec : PatientData := { janeRec with id := "" }

/-- A doctor session user. -/
def doctorUser : User := { id := "U1", name := "Dana", role := .doctor }

/-- A researcher session user. -/
def researcherUser : User := { id := "U2", name := "Rita", role := .researcher }

/-- A marketing session user. -/
def marketingUser : User := { id := "U3", name := "Mark", role := .marketing }

/-- An intern session user. -/
def internUser : User := { id := "U4", name := "Ian", role := .intern }

/-- The researcher's filtered view of `janeRec`: name and address stripped,
id anonymized. -/
def janeResearcherView : PartialPatient :=
  { id := some "ANON_P001", name := none, age := some 67
    gender := some "Female"
    conditions := some ["Type 2 Diabetes", "Hypertension"]
    medications := some ["Metformin"]
    notes := some "Stable"
    address := none
    visit_dates := some ["2024-01-15", "2024-03-22"] }

/-! ## Claim C1 -/

/-- C1 (amended): whenever `filterPatientData` returns a view, its present
fields are a subset of the role's `allowedFields`; and when
`canViewIdentifyingInfo` is false, `name` and `address` are absent and the
`id` field is `"ANON_" ++ id` for a nonempty record id — an empty record id
is left as the empty string (the source only anonymizes a truthy id). -/
theorem c1_filter_subset_and_anonymize (u : User) (r : PatientData)
    (v : PartialPatient) (h : filterPatientData u r = some v) :
    presentFields v ⊆ (rolePermissions u.role).allowedFields
    ∧ ((rolePermissions u.role).canViewIdentifyingInfo = false →
        v.name = none ∧ v.address = none ∧
        v.id = some (if r.id = "" then "" else "ANON_" ++ r.id)) := by
  obtain ⟨uid, uname, role⟩ := u
  cases role <;>
    simp [filterPatientData, filterPatientDataPartial, filterFields, toPartial,
      rolePermissions, jsTruthyStr] at h <;>
    subst h <;>
    constructor
  case doctor.left =>
    intro f hf
    simp [presentFields, allFields] at hf
    simp [rolePermissions]
    rcases hf with h | h | h | h | h | h | h | h | h <;> simp [h]
  case doctor.right => simp [rolePermissions]
  case researcher.left =>
    intro f hf
    simp [presentFields, allFields] at hf
    simp [rolePermissions]
    rcases hf with h | h | h | h | h | h | h <;> simp [h]
  case researcher.right =>
    intro _
    refine ⟨rfl, rfl, ?_⟩
    by_cases hr : r.id = "" <;> simp [hr]

/-- C1 witness: the researcher's view of the sample record P001 — present
fields inside the researcher allow-list, name and address gone, id
anonymized. -/
theorem c1_witness :
    presentFields janeResearcherView ⊆
      (rolePermissions researcherUser.role).allowedFields
    ∧ janeResearcherView.name = none ∧ janeResearcherView.address = none
    ∧ janeResearcherView.id = some ("ANON_" ++ janeRec.id) := by
  have h := c1_filter_subset_and_anonymize researcherUser janeRec
    janeResearcherView (by decide)
  have h2 := h.2 (by decide)
  exact ⟨h.1, h2.1, h2.2.1, by simpa [janeRec] using h2.2.2⟩

/-- C1 counterexample: for a record whose id is the empty string, the
researcher's view carries `id = ""` unprefixed, because the source guards
the anonymization with JS truthiness of the id. -/
theorem c1_counterexample :
    filterPatientData researcherUser emptyIdRec =
      some { janeResearcherView with id := some "" }
    ∧ (rolePermissions researcherUser.role).canViewIdentifyingInfo = false
    ∧ leadsChars "ANON_".data "".data = false := by decide

/-! ## Claim C2 -/

/-- C2 (violated by the code): a Marketing user — aggregate access but no
individual access — issuing a criteria search receives the raw matching
records in `QueryResult.data`, name and address included:
`findPatientsByCriteria` only applies `filterPatientData` when the user has
individual access, and `handleCriteriaSearch` stores its result list in
`data` unconditionally (only the message text is count-only). -/
theorem c2_raw_records_in_data :
    checkAccess marketingUser .individual = false
    ∧ checkAccess marketingUser .aggregated = true
    ∧ categorizeQuery "Find all patients" = "criteria_search"
    ∧ (processQueryRuleBased ⟨marketingUser, [janeRec]⟩ "Find all patients").data
        = some (.recordsData [toPartial janeRec])
    ∧ (toPartial janeRec).name = some "Jane Smith"
    ∧ (toPartial janeRec).address = some "123 Main St" := by decide

/-! ## Claim C4 -/

/-- C4 (amended): re-filtering an already-filtered view under the same role
is the identity on every field except `id`: for roles with
`canViewIdentifyingInfo` the second pass returns the view unchanged, while
for roles without it the second pass re-applies the anonymization step and
prefixes the (nonempty) id with a second `"ANON_"`. -/
theorem c4_refilter (u : User) (r : PatientData) (v : PartialPatient)
    (h : filterPatientData u r = some v) :
    ((rolePermissions u.role).canViewIdentifyingInfo = true →
      filterPatientDataPartial u v = some v)
    ∧ ((rolePermissions u.role).canViewIdentifyingInfo = false →
      filterPatientDataPartial u v =
        some { v with
          id := v.id.map fun s => if jsTruthyStr s then "ANON_" ++ s else s }) := by
  obtain ⟨uid, uname, role⟩ := u
  cases role <;>
    simp [filterPatientData, filterPatientDataPartial, filterFields, toPartial,
      rolePermissions] at h <;>
    subst h <;>
    constructor <;>
    simp [filterPatientDataPartial, filterFields, rolePermissions]

/-- C4 witness: for the doctor (identifying info allowed) filtering the
sample record twice changes nothing. -/
theorem c4_witness :
    filterPatientDataPartial doctorUser (toPartial janeRec) =
      some (toPartial janeRec) :=
  (c4_refilter doctorUser janeRec (toPartial janeRec) (by decide)).1 rfl

/-- C4 counterexample: re-filtering the researcher's view of P001 rewrites
the id to `ANON_ANON_P001`, so filtering is not idempotent as claimed. -/
theorem c4_counterexample :
    filterPatientData researcherUser janeRec = some janeResearcherView
    ∧ filterPatientDataPartial researcherUser janeResearcherView =
        some { janeResearcherView with id := some "ANON_ANON_P001" }
    ∧ filterPatientDataPartial researcherUser janeResearcherView ≠
        some janeResearcherView := by decide

/-! ## Claim C3 -/

/-- C3 (amended): every individual-summary, lookup or population query by an
Intern yields `success = false`; the message equals the Intern-specific
denial text for every population query and for every individual query that
resolves to an existing patient — but when no patient (or no id) can be
resolved, the message is the corresponding not-found or missing-parameter
prompt instead of the denial text. -/
theorem c3_intern_denial (patients : List PatientData) (q : String) :
    (handleIndividualSummary ⟨internUser, patients⟩ q).success = false
    ∧ (handlePatientLookup ⟨internUser, patients⟩ q).success = false
    ∧ (handlePopulationStats ⟨internUser, patients⟩ q).success = false
    ∧ (handlePopulationStats ⟨internUser, patients⟩ q).message = internDeniedMessage
    ∧ (∀ p, lookupPatientFor patients q = some p →
        (handleIndividualSummary ⟨internUser, patients⟩ q).message
          = internDeniedMessage)
    ∧ ((categorizeQuery q = "individual_summary"
        ∨ categorizeQuery q = "patient_lookup"
        ∨ categorizeQuery q = "population_stats") →
        (processQueryRuleBased ⟨internUser, patients⟩ q).success = false) := by
  have hsum : ∀ q', (handleIndividualSummary ⟨internUser, patients⟩ q').success
      = false := by
    intro q'
    unfold handleIndividualSummary
    split
    · simp
    · simp [summarizeIndividualPatient, checkAccess, internUser, rolePermissions]
  have hlook : (handlePatientLookup ⟨internUser, patients⟩ q).success = false := by
    unfold handlePatientLookup
    split
    · simp
    · split
      · simp
      · exact hsum _
  have hpopS : (handlePopulationStats ⟨internUser, patients⟩ q).success = false := by
    simp [handlePopulationStats, generatePopulationStats, checkAccess, internUser,
      rolePermissions]
  have hpopM : (handlePopulationStats ⟨internUser, patients⟩ q).message
      = internDeniedMessage := by
    simp [handlePopulationStats, generatePopulationStats, checkAccess, internUser,
      rolePermissions, getAccessDeniedMessage, internDeniedMessage]
  refine ⟨hsum q, hlook, hpopS, hpopM, ?_, ?_⟩
  · intro p hp
    unfold handleIndividualSummary
    rw [hp]
    simp [summarizeIndividualPatient, checkAccess, internUser, rolePermissions,
      getAccessDeniedMessage, internDeniedMessage]
  · intro hcat
    unfold processQueryRuleBased
    rcases hcat with h | h | h <;> rw [h] <;> simp [hsum q, hlook, hpopS]

/-- C3 witness: for the query `Summarize Jane Smith\x27s history` over the
sample record, the Intern gets `success = false` with exactly the
Intern-specific denial text. -/
theorem c3_witness :
    (handleIndividualSummary ⟨internUser, [janeRec]⟩
        "Summarize Jane Smith\x27s history").message = internDeniedMessage
    ∧ (processQueryRuleBased ⟨internUser, [janeRec]⟩
        "Summarize Jane Smith\x27s history").success = false :=
  ⟨(c3_intern_denial [janeRec] "Summarize Jane Smith\x27s history").2.2.2.2.1
      janeRec (by decide),
   (c3_intern_denial [janeRec] "Summarize Jane Smith\x27s history").2.2.2.2.2
      (Or.inl (by decide))⟩

/-- C3 counterexample: the Intern query `Summarize patient history` is
classified as an individual query, fails, but its message is the not-found
prompt, not the Intern-specific denial text — the claim's "regardless of the
query's content" does not hold. -/
theorem c3_counterexample :
    categorizeQuery "Summarize patient history" = "individual_summary"
    ∧ (processQueryRuleBased ⟨internUser, []⟩ "Summarize patient history").success
        = false
    ∧ (processQueryRuleBased ⟨internUser, []⟩ "Summarize patient history").message
        = "Patient not found. Please check the patient ID or name."
    ∧ ("Patient not found. Please check the patient ID or name."
        = internDeniedMessage) = False := by decide

/-! ## Claim C5 -/

/-- C5 (amended): when none of rules 1–5 fires, the classified intent is
condition-query exactly when the lowercased text contains `condition`,
`diabetes`, `hypertension` or `asthma` — the literal vocabulary of rule 6,
which (unlike the extraction vocabulary) does not include `cholesterol`. -/
theorem c5_rule6_vocabulary (q : String)
    (h1 : rule1Guard (lowerStr q) = false)
    (h2 : rule2Guard (lowerStr q) = false)
    (h3 : rule3Guard (lowerStr q) = false)
    (h4 : rule4Guard (lowerStr q) = false)
    (h5 : rule5Guard (lowerStr q) = false) :
    categorizeQuery q = "condition_query" ↔
      (includesStr (lowerStr q) "condition" || includesStr (lowerStr q) "diabetes"
        || includesStr (lowerStr q) "hypertension"
        || includesStr (lowerStr q) "asthma") = true := by
  unfold categorizeQuery rule6Guard
  simp only [h1, h2, h3, h4, h5, Bool.false_eq_true, if_false]
  split <;> simp_all

/-- C5 witness: `has diabetes` passes no earlier rule and classifies as a
condition query through rule 6. -/
theorem c5_witness : categorizeQuery "has diabetes" = "condition_query" :=
  (c5_rule6_vocabulary "has diabetes" (by decide) (by decide) (by decide)
      (by decide) (by decide)).mpr (by decide)

/-- C5 counterexample: `cholesterol` is in the fixed condition vocabulary of
the extractors and matches none of rules 1–5, yet the classifier returns
`general`, not condition-query — rule 6 does not test for `cholesterol`. -/
theorem c5_counterexample :
    "cholesterol" ∈ conditionsVocab
    ∧ includesStr (lowerStr "cholesterol") "cholesterol" = true
    ∧ rule1Guard (lowerStr "cholesterol") = false
    ∧ rule2Guard (lowerStr "cholesterol") = false
    ∧ rule3Guard (lowerStr "cholesterol") = false
    ∧ rule4Guard (lowerStr "cholesterol") = false
    ∧ rule5Guard (lowerStr "cholesterol") = false
    ∧ categorizeQuery "cholesterol" = "general"
    ∧ categorizeQuery "cholesterol" ≠ "condition_query" := by decide

/-! ## Claim C6 -/

/-- C6 (violated by the code): when the AI delegate is configured and its
processing fails, the agent returns the delegate's `success = false`
"AI service temporarily unavailable" result to the caller; the rule-based
path — which would have answered this query successfully — is not invoked,
despite the source comment promising a fallback. -/
theorem c6_no_fallback :
    agentProcessQuery true (.error "timeout") ⟨doctorUser, []⟩ "hello"
      = { success := false
          data := none
          message := "AI service temporarily unavailable. Error: timeout"
          accessLevel := "doctor"
          redactedFields := none }
    ∧ (processQueryRuleBased ⟨doctorUser, []⟩ "hello").success = true
    ∧ agentProcessQuery true (.error "timeout") ⟨doctorUser, []⟩ "hello"
        ≠ processQueryRuleBased ⟨doctorUser, []⟩ "hello" := by decide

/-! ## Claim C7 -/

set_option maxRecDepth 100000 in
/-- C7: a Marketing user asking `What percentage of patients are on
Metformin?` over the three sample records (exactly one on Metformin) gets a
successful population-stats answer whose message reports Metformin at
`33.33%` (1 patient of 3) and contains no patient name. -/
theorem c7_metformin_percentage :
    (processQueryRuleBased ⟨marketingUser, [janeRec, johnRec, maryRec]⟩
        "What percentage of patients are on Metformin?").success = true
    ∧ includesStr
        (processQueryRuleBased ⟨marketingUser, [janeRec, johnRec, maryRec]⟩
          "What percentage of patients are on Metformin?").message
        "- Metformin: 1 patients (33.33%)" = true
    ∧ includesStr
        (processQueryRuleBased ⟨marketingUser, [janeRec, johnRec, maryRec]⟩
          "What percentage of patients are on Metformin?").message
        "Total Patients: 3" = true
    ∧ ([ "Jane", "Smith", "John", "Doe", "Mary", "Johnson"].all fun nm =>
        !includesStr
          (processQueryRuleBased ⟨marketingUser, [janeRec, johnRec, maryRec]⟩
            "What percentage of patients are on Metformin?").message nm) = true
    := by decide

/-! ## Claim C8 -/

/-- C8: the reported `redactedFields` are exactly the field names present on
the full record but absent from the user's filtered view (the empty set is
reported as `undefined`, read back with `getD []`); and when individual
access is denied they are every field of the record. -/
theorem c8_redacted_fields (u : User) (r : PatientData) (opts : SummaryOptions) :
    (summarizeIndividualPatient u r opts).redactedFields.getD []
      = allFields.filter (fun f => f ∉ viewFields u r)
    ∧ (checkAccess u .individual = false →
        (summarizeIndividualPatient u r opts).redactedFields = some allFields) := by
  obtain ⟨uid, uname, role⟩ := u
  cases role
  case doctor => exact ⟨rfl, fun h => Bool.noConfusion h⟩
  case researcher => exact ⟨rfl, fun h => Bool.noConfusion h⟩
  case marketing => exact ⟨rfl, fun _ => rfl⟩
  case intern => exact ⟨rfl, fun _ => rfl⟩

/-- C8 witness: for the Intern (access fully denied) on the sample record
the reported redacted fields are all nine record fields. -/
theorem c8_witness :
    (summarizeIndividualPatient internUser janeRec {}).redactedFields.getD []
      = allFields.filter (fun f => f ∉ viewFields internUser janeRec)
    ∧ (summarizeIndividualPatient internUser janeRec {}).redactedFields
        = some allFields :=
  ⟨(c8_redacted_fields internUser janeRec {}).1,
   (c8_redacted_fields internUser janeRec {}).2 (by decide)⟩

/-! ## Claim C9 -/

/-- C9: when the extracted patient id of a lookup query matches a record,
`handlePatientLookup` returns exactly the individual-summary handler's
result on `"Summarize patient "` followed by that record's stored name; and
as a consequence, a record whose stored name is the single word `John` is
reported as not found even though its id `P001` matched, because the
two-capitalized-word extraction pattern cannot recover the name. -/
theorem c9_lookup_delegation (ctx : QueryContext) (q pid : String)
    (p : PatientData)
    (h1 : extractPatientId q = some pid)
    (h2 : ctx.patients.find? (fun r => r.id = pid) = some p) :
    handlePatientLookup ctx q
      = handleIndividualSummary ctx ("Summarize patient " ++ p.name)
    ∧ extractPatientId "patient id P001" = some "P001"
    ∧ (handlePatientLookup ⟨doctorUser, [johnOnlyRec]⟩ "patient id P001").success
        = false
    ∧ (handlePatientLookup ⟨doctorUser, [johnOnlyRec]⟩ "patient id P001").message
        = "Patient not found. Please check the patient ID or name." := by
  refine ⟨?_, by decide, by decide, by decide⟩
  unfold handlePatientLookup
  simp only [h1, h2]

/-- C9 witness: the delegation equality at the concrete lookup
`patient id P001` resolving to the single-word-name record. -/
theorem c9_witness :
    handlePatientLookup ⟨doctorUser, [johnOnlyRec]⟩ "patient id P001"
      = handleIndividualSummary ⟨doctorUser, [johnOnlyRec]⟩
          ("Summarize patient " ++ johnOnlyRec.name) :=
  (c9_lookup_delegation ⟨doctorUser, [johnOnlyRec]⟩ "patient id P001" "P001"
      johnOnlyRec (by decide) (by decide)).1

/-! ## Claim C10 -/

/-- C10: for every user with aggregate access, population statistics over an
empty record list are total and degenerate: zero patients, average age `0`
(the mean is guarded by the age count), and empty gender, condition and
medication tables. -/
theorem c10_empty_population (u : User)
    (h : checkAccess u .aggregated = true) :
    generatePopulationStats u [] =
      .ok { totalPatients := 0, averageAge := 0, genderDistribution := [],
            commonConditions := [], commonMedications := [] } := by
  unfold generatePopulationStats
  rw [if_neg (by simp [h])]
  rfl

/-- C10 witness: the Marketing user (aggregate-only) over the empty list. -/
theorem c10_witness :
    generatePopulationStats marketingUser [] =
      .ok { totalPatients := 0, averageAge := 0, genderDistribution := [],
            commonConditions := [], commonMedications := [] } :=
  c10_empty_population marketingUser (by decide)

end MedQuery
